import Mathlib

/-!
Verification of the relay and session-mapping engine of the support-bot
repository (src/main.py) against its natural-language specification.

The Python program is shallowly embedded: the MongoDB-backed session store
and the Telegram gateway are modelled as explicit state, the gateway and
store outcomes are driven by response scripts held in the state (an empty
script means every remaining call succeeds), and Python exceptions are
modelled with `Except String` threaded through a state monad.  Every
external call is recorded in a trace so that theorems can speak about
which gateway calls an event performed.
-/

/-! ## String utilities (Python `in` on lowered strings) -/

/-- Lowercase a string character by character, modelling Python `str.lower`
on the ASCII error messages the program matches against. -/
def lowerStr (s : String) : String := String.mk (s.toList.map Char.toLower)

/-- Boolean test that `n` is an initial segment of `h` (on character lists). -/
def isPref : List Char → List Char → Bool
  | [], _ => true
  | _ :: _, [] => false
  | a :: as, b :: bs => a == b && isPref as bs

/-- Boolean substring test on character lists, modelling Python `needle in hay`. -/
def hasSub : List Char → List Char → Bool
  | h, n =>
    match h with
    | [] => isPref n []
    | _ :: t => isPref n h || hasSub t n

/-- Substring test on strings, modelling Python `needle in hay`. -/
def strContains (hay needle : String) : Bool := hasSub hay.toList needle.toList

/-! ## Data model -/

/-- One document of the `users` collection: the correspondent-to-channel
session row written by `DatabaseManager.save_user_topic` (timestamps are
omitted; no claim mentions them). -/
structure UserRow where
  user_id : String
  topic_id : Nat
  user_name : String
  username : String
deriving DecidableEq, Repr

/-- One document of the `messages` collection, appended by
`DatabaseManager.log_message`. -/
structure MessageEvent where
  user_id : String
  message_type : String
  direction : String
  content : Option String
deriving DecidableEq, Repr

/-- A recorded external call (Telegram gateway), with the outcome the
gateway reported for it. -/
inductive Call where
  | createTopic (name : String) (ok : Bool)
  | forwardMsg (fromChat : Int) (msgId : Nat) (threadId : Nat) (ok : Bool)
  | postGroup (threadId : Nat) (text : String) (ok : Bool)
  | sendUser (uid : String) (mtype : String) (ok : Bool)
  | replyUser (text : String) (ok : Bool)
  | replyThread (threadId : Nat) (text : String) (ok : Bool)
deriving DecidableEq, Repr

/-- The whole world the program manipulates: the session store (`users`,
`messages`), the gateway's topic-id allocator, the response scripts that
decide the outcome of each external call (head is consumed per call; an
exhausted script means success), the store fault flags, and the call trace. -/
structure S where
  users : List UserRow
  messages : List MessageEvent
  nextTopicId : Nat
  forwardResults : List (Option String)
  createResults : List Bool
  sendResults : List (Option String)
  postResults : List Bool
  replyResults : List Bool
  noticeResults : List Bool
  findFails : Bool
  saveFails : Bool
  logFails : Bool
  trace : List Call
deriving DecidableEq, Repr

instance {e a : Type} [DecidableEq e] [DecidableEq a] : DecidableEq (Except e a)
  | Except.ok x, Except.ok y =>
    match decEq x y with
    | isTrue h => isTrue (by rw [h])
    | isFalse h => isFalse (fun hh => h (by injection hh))
  | Except.ok _, Except.error _ => isFalse (fun hh => Except.noConfusion hh)
  | Except.error _, Except.ok _ => isFalse (fun hh => Except.noConfusion hh)
  | Except.error x, Except.error y =>
    match decEq x y with
    | isTrue h => isTrue (by rw [h])
    | isFalse h => isFalse (fun hh => h (by injection hh))

/-- Computation over the world state that may raise a Python-style
exception carrying an error message. -/
def M (α : Type) : Type := S → Except String α × S

instance : Monad M where
  pure a := fun s => (Except.ok a, s)
  bind x f := fun s =>
    match x s with
    | (Except.ok a, s2) => f a s2
    | (Except.error e, s2) => (Except.error e, s2)

/-- Raise an exception carrying message `e`. -/
def throwM {α : Type} (e : String) : M α := fun s => (Except.error e, s)

/-- Python `try`/`except Exception as e` around `body`. -/
def tryCatchM {α : Type} (body : M α) (handler : String → M α) : M α := fun s =>
  match body s with
  | (Except.ok a, s2) => (Except.ok a, s2)
  | (Except.error e, s2) => handler e s2

/-- Append one call record to the trace. -/
def record (c : Call) : M Unit := fun s =>
  (Except.ok (), { s with trace := s.trace ++ [c] })

/-! ## Configuration constants of the source -/

/-- The staff group chat id, from the `SUPPORT_GROUP_ID` environment value. -/
def SUPPORT_GROUP_ID : Int := -1002

/-- The `AUTO_REPLY_ENABLED` configuration constant. -/
def AUTO_REPLY_ENABLED : Bool := true

/-- The `AUTO_REPLY_MESSAGE` configuration constant. -/
def AUTO_REPLY_MESSAGE : String :=
  "✅ Message received! Our team will reply in a few hours. Thank you! 🙏"

/-! ## Session store: the `DatabaseManager` methods and raw collection calls -/

/-- Lookup of the session row for a correspondent, as `users.find_one({"user_id": ...})`. -/
def findUser (l : List UserRow) (uid : String) : Option UserRow :=
  l.find? (fun r => r.user_id == uid)

/-- Lookup of the session row bound to a topic, as `users.find_one({"topic_id": ...})`. -/
def findUserByTopic (l : List UserRow) (tid : Nat) : Option UserRow :=
  l.find? (fun r => r.topic_id == tid)

/-- The effect of `users.update_one({"user_id": uid}, {"$set": ...}, upsert=True)`:
replace the first row keyed by `uid`, or append a new row if none exists. -/
def upsertUsers (l : List UserRow) (uid : String) (tid : Nat)
    (name uname : String) : List UserRow :=
  match l with
  | [] => [⟨uid, tid, name, uname⟩]
  | r :: rest =>
    if r.user_id == uid then ⟨uid, tid, name, uname⟩ :: rest
    else r :: upsertUsers rest uid tid name uname

/-- The effect of `users.delete_one({"user_id": uid})`: remove the first
row keyed by `uid`. -/
def deleteFirst (l : List UserRow) (uid : String) : List UserRow :=
  match l with
  | [] => []
  | r :: rest => if r.user_id == uid then rest else r :: deleteFirst rest uid

namespace db

/-- Model of `DatabaseManager.get_user_topic`: an uncaught `find_one`
followed by `user['topic_id'] if user else None`.  A store fault here
raises (the method has no try block). -/
def get_user_topic (uid : String) : M (Option Nat) := fun s =>
  if s.findFails then (Except.error "store find failed", s)
  else (Except.ok ((findUser s.users uid).map (·.topic_id)), s)

/-- Model of `DatabaseManager.save_user_topic`: the upsert, with every
store fault caught inside the method, logged, and turned into `False`. -/
def save_user_topic (uid : String) (tid : Nat) (name uname : String) : M Bool := fun s =>
  if s.saveFails then (Except.ok false, s)
  else (Except.ok true, { s with users := upsertUsers s.users uid tid name uname })

/-- Model of `DatabaseManager.log_message`: the append to the `messages`
collection, with every store fault caught inside the method and logged. -/
def log_message (uid mtype dir : String) (content : Option String) : M Unit := fun s =>
  if s.logFails then (Except.ok (), s)
  else (Except.ok (), { s with messages := s.messages ++ [⟨uid, mtype, dir, content⟩] })

/-- Model of the raw `db.users.delete_one({"user_id": ...})` call made by
`forward_to_support`. -/
def users_delete_one (uid : String) : M Unit := fun s =>
  (Except.ok (), { s with users := deleteFirst s.users uid })

/-- Model of the raw `db.users.find_one({"topic_id": ...})` call made by
`handle_reply`; uncaught, so a store fault raises. -/
def users_find_one_by_topic (tid : Nat) : M (Option UserRow) := fun s =>
  if s.findFails then (Except.error "store find failed", s)
  else (Except.ok (findUserByTopic s.users tid), s)

end db

/-! ## Gateway primitives (Telegram bot API calls) -/

/-- Model of `context.bot.create_forum_topic`: consumes the next scripted
outcome; on success allocates the next topic id. -/
def bot_create_forum_topic (name : String) : M Nat := fun s =>
  let ok := s.createResults.headD true
  let s1 := { s with createResults := s.createResults.tail,
                     trace := s.trace ++ [Call.createTopic name ok] }
  if ok then (Except.ok s1.nextTopicId, { s1 with nextTopicId := s1.nextTopicId + 1 })
  else (Except.error "topic creation failed", s1)

/-- Model of `context.bot.forward_message` into a topic of the support
group: consumes the next scripted outcome, which on failure carries the
exception text the gateway raised. -/
def bot_forward_message (fromChat : Int) (msgId : Nat) (threadId : Nat) : M Unit := fun s =>
  let r := s.forwardResults.headD none
  let s1 := { s with forwardResults := s.forwardResults.tail,
                     trace := s.trace ++ [Call.forwardMsg fromChat msgId threadId r.isNone] }
  match r with
  | none => (Except.ok (), s1)
  | some e => (Except.error e, s1)

/-- Model of `context.bot.send_message` into a topic of the support group
(the introductory notice). -/
def bot_post_group (threadId : Nat) (text : String) : M Unit := fun s =>
  let ok := s.postResults.headD true
  let s1 := { s with postResults := s.postResults.tail,
                     trace := s.trace ++ [Call.postGroup threadId text ok] }
  if ok then (Except.ok (), s1) else (Except.error "send_message failed", s1)

/-- Model of the staff-to-correspondent send primitives
(`send_message`, `send_photo`, ..., `send_video_note`): consumes the next
scripted outcome, which on failure carries the exception text. -/
def bot_send_user (uid : String) (mtype : String) : M Unit := fun s =>
  let r := s.sendResults.headD none
  let s1 := { s with sendResults := s.sendResults.tail,
                     trace := s.trace ++ [Call.sendUser uid mtype r.isNone] }
  match r with
  | none => (Except.ok (), s1)
  | some e => (Except.error e, s1)

/-- Model of `update.message.reply_text` in the private chat with the
correspondent (auto-reply and error notices to the user). -/
def bot_reply_user (text : String) : M Unit := fun s =>
  let ok := s.replyResults.headD true
  let s1 := { s with replyResults := s.replyResults.tail,
                     trace := s.trace ++ [Call.replyUser text ok] }
  if ok then (Except.ok (), s1) else (Except.error "reply failed", s1)

/-- Model of `update.message.reply_text(..., message_thread_id=topic_id)`
posting a diagnostic notice into the originating topic. -/
def bot_reply_thread (threadId : Nat) (text : String) : M Unit := fun s =>
  let ok := s.noticeResults.headD true
  let s1 := { s with noticeResults := s.noticeResults.tail,
                     trace := s.trace ++ [Call.replyThread threadId text ok] }
  if ok then (Except.ok (), s1) else (Except.error "reply failed", s1)

/-! ## Inbound update and staff message shapes -/

/-- The fields of a correspondent-side `Update` that the handlers read. -/
structure UpdateMsg where
  chatType : String
  chatId : Int
  userId : String
  firstName : Option String
  username : Option String
  msgId : Nat
  text : Option String
  caption : Option String
  docFileName : Option String
deriving DecidableEq, Repr

/-- The fields of a staff-side message in the support group that
`handle_reply` reads; the media fields mirror Python truthiness of
`update.message.photo`, `update.message.video`, and so on. -/
structure StaffMsg where
  chatId : Int
  threadId : Option Nat
  text : Option String
  hasPhoto : Bool
  hasVideo : Bool
  hasDocument : Bool
  hasVoice : Bool
  hasAudio : Bool
  hasSticker : Bool
  hasVideoNote : Bool
deriving DecidableEq, Repr

/-- Python `x or default` on an optional string (None and the empty string
are falsy). -/
def orStr (o : Option String) (d : String) : String :=
  match o with
  | none => d
  | some s => if s = "" then d else s

/-- Python truthiness of an optional string. -/
def truthyStr (o : Option String) : Bool :=
  match o with
  | none => false
  | some s => s != ""

/-! ## Support bot functions (src/main.py) -/

/-- Model of `send_auto_reply`: best-effort acknowledgment; any failure is
caught and only logged. -/
def send_auto_reply : M Unit :=
  if !AUTO_REPLY_ENABLED then pure ()
  else tryCatchM (bot_reply_user AUTO_REPLY_MESSAGE) (fun _ => pure ())

/-- The introductory notice posted into a freshly created topic (the
timestamp of the source template is abstracted to a fixed token). -/
def welcomeText (uid uname uusern : String) : String :=
  "🆕 <b>New Conversation Started</b>\n\n👤 <b>Name:</b> " ++ uname ++
  "\n🆔 <b>User ID:</b> <code>" ++ uid ++ "</code>\n📱 <b>Username:</b> @" ++
  (if uusern = "" then "None" else uusern) ++ "\n🕐 <b>Time:</b> now"

/-- Model of `get_or_create_topic` (src/main.py lines 200-236): fast path
when the stored topic id is truthy, otherwise create a forum topic,
persist the mapping, post the introductory notice, and return the new id.
A failure inside the creation block is logged and re-raised. -/
def get_or_create_topic (uid uname uusern : String) : M Nat := do
  let t ← db.get_user_topic uid
  if t.getD 0 ≠ 0 then
    pure (t.getD 0)
  else do
    let tid ← bot_create_forum_topic ("👤 " ++ uname.take 20)
    let _ ← db.save_user_topic uid tid uname uusern
    bot_post_group tid (welcomeText uid uname uusern)
    pure tid

/-- Model of `forward_to_support` (src/main.py lines 175-198): forward into
the stored topic; if the gateway raises an error whose lowered text
contains "thread not found", delete the session row, resolve a fresh
topic, and retry the forward exactly once; any other error re-raises. -/
def forward_to_support (uid : String) (fromChat : Int) (msgId : Nat) (topicId : Nat)
    (uname uusern : String) : M Nat :=
  tryCatchM (do
      bot_forward_message fromChat msgId topicId
      pure topicId)
    (fun e =>
      if strContains (lowerStr e) "thread not found" ||
         strContains (lowerStr e) "message thread not found" then do
        db.users_delete_one uid
        let newTid ← get_or_create_topic uid uname uusern
        bot_forward_message fromChat msgId newTid
        pure newTid
      else throwM e)

/-- Common body of the inbound handlers that forward through
`forward_to_support` (text, photo, video, document, audio, sticker); they
differ only in the logged media type, the logged content and the error
reply of the `except` block (none for the sticker handler). -/
def inboundViaFts (mtype : String) (content : Option String) (errReply : Option String)
    (u : UpdateMsg) : M Unit :=
  if u.chatType ≠ "private" then pure ()
  else
    let uid := u.userId
    let uname := orStr u.firstName "User"
    let uusern := orStr u.username "no_username"
    tryCatchM (do
        send_auto_reply
        let tid ← get_or_create_topic uid uname uusern
        let _ ← forward_to_support uid u.chatId u.msgId tid uname uusern
        db.log_message uid mtype "from_user" content)
      (fun _ =>
        match errReply with
        | some t => bot_reply_user t
        | none => pure ())

/-- Common body of the inbound handlers that call `bot.forward_message`
directly, without the topic-repair wrapper (voice, video note). -/
def inboundDirect (mtype : String) (errReply : Option String)
    (u : UpdateMsg) : M Unit :=
  if u.chatType ≠ "private" then pure ()
  else
    let uid := u.userId
    let uname := orStr u.firstName "User"
    let uusern := orStr u.username "no_username"
    tryCatchM (do
        send_auto_reply
        let tid ← get_or_create_topic uid uname uusern
        bot_forward_message u.chatId u.msgId tid
        db.log_message uid mtype "from_user" none)
      (fun _ =>
        match errReply with
        | some t => bot_reply_user t
        | none => pure ())

/-- Model of `handle_text_message` (src/main.py lines 240-263). -/
def handle_text_message (u : UpdateMsg) : M Unit :=
  inboundViaFts "text" u.text
    (some "❌ Sorry, there was an error processing your message. Please try again.") u

/-- Model of `handle_photo` (src/main.py lines 265-286). -/
def handle_photo (u : UpdateMsg) : M Unit :=
  inboundViaFts "photo" u.caption (some "❌ Error sending photo. Please try again.") u

/-- Model of `handle_video`. -/
def handle_video (u : UpdateMsg) : M Unit :=
  inboundViaFts "video" u.caption (some "❌ Error sending video. Please try again.") u

/-- Model of `handle_document`; the logged content is the document file
name when present. -/
def handle_document (u : UpdateMsg) : M Unit :=
  inboundViaFts "document" u.docFileName (some "❌ Error sending file. Please try again.") u

/-- Model of `handle_voice`: forwards directly, without the repair wrapper. -/
def handle_voice (u : UpdateMsg) : M Unit :=
  inboundDirect "voice" (some "❌ Error sending voice message. Please try again.") u

/-- Model of `handle_audio`. -/
def handle_audio (u : UpdateMsg) : M Unit :=
  inboundViaFts "audio" none (some "❌ Error sending audio. Please try again.") u

/-- Model of `handle_sticker`: its `except` block only logs, with no reply. -/
def handle_sticker (u : UpdateMsg) : M Unit :=
  inboundViaFts "sticker" none none u

/-- Model of `handle_video_note`: forwards directly and its `except` block
only logs. -/
def handle_video_note (u : UpdateMsg) : M Unit :=
  inboundDirect "video_note" none u

/-! ## Delivery classification and the staff reply handler -/

/-- Diagnostic categories of the `except` chain of `handle_reply`
(src/main.py lines 510-553). -/
inductive Notice where
  | recipientBlocked
  | recipientAccountMissing
  | cannotInitiateConversation
  | forbidden
  | unknown (raw : String)
deriving DecidableEq, Repr

/-- Model of the classification chain of `handle_reply`: the raised error
text is lowered and matched against fixed substrings, in source order;
an unmatched error classifies as `unknown` carrying the raw text. -/
def classify (e : String) : Notice :=
  let m := lowerStr e
  if strContains m "blocked" || strContains m "bot was blocked" then
    Notice.recipientBlocked
  else if strContains m "chat not found" || strContains m "user not found" then
    Notice.recipientAccountMissing
  else if strContains m "bot can\x27t initiate conversation" then
    Notice.cannotInitiateConversation
  else if strContains m "forbidden" then
    Notice.forbidden
  else
    Notice.unknown e

/-- The `error_details` template built by `handle_reply` for each category;
only the `unknown` template embeds the raw error text. -/
def errorDetails (uid : String) (usr : UserRow) (e : String) : String :=
  match classify e with
  | Notice.recipientBlocked =>
    "⚠️ <b>Cannot send message - User has blocked the bot</b>\n\n👤 <b>User ID:</b> <code>" ++
    uid ++ "</code>\n📝 <b>User:</b> " ++ usr.user_name ++ "\n📱 <b>Username:</b> @" ++
    usr.username ++
    "\n\n💡 <b>Note:</b> The user needs to unblock the bot and send /start again to receive messages."
  | Notice.recipientAccountMissing =>
    "⚠️ <b>Cannot send message - User account not found</b>\n\n👤 <b>User ID:</b> <code>" ++
    uid ++
    "</code>\n\n💡 <b>Possible reasons:</b>\n• User deleted their Telegram account\n• Invalid user ID\n• User deactivated their account"
  | Notice.cannotInitiateConversation =>
    "⚠️ <b>Cannot send message - Bot cannot initiate conversation</b>\n\n👤 <b>User ID:</b> <code>" ++
    uid ++ "</code>\n\n💡 <b>Solution:</b> The user needs to send /start to the bot first."
  | Notice.forbidden =>
    "⚠️ <b>Cannot send message - Access forbidden</b>\n\n👤 <b>User ID:</b> <code>" ++
    uid ++
    "</code>\n\n💡 <b>Note:</b> User may have blocked the bot or privacy settings prevent messaging."
  | Notice.unknown raw =>
    "❌ <b>Failed to send message to user</b>\n\n👤 <b>User ID:</b> <code>" ++ uid ++
    "</code>\n🔍 <b>Error:</b> " ++ raw ++
    "\n\n💡 <b>Note:</b> Please check the error details above."

/-- The media-type dispatch of `handle_reply`: the `if`/`elif` chain over
the message fields, each matched branch issuing the corresponding send
primitive; an unmatched message issues no send and leaves the initial
`message_type = "text"` in place. -/
def dispatchSend (uid : String) (m : StaffMsg) : M String :=
  if truthyStr m.text then do bot_send_user uid "text"; pure "text"
  else if m.hasPhoto then do bot_send_user uid "photo"; pure "photo"
  else if m.hasVideo then do bot_send_user uid "video"; pure "video"
  else if m.hasDocument then do bot_send_user uid "document"; pure "document"
  else if m.hasVoice then do bot_send_user uid "voice"; pure "voice"
  else if m.hasAudio then do bot_send_user uid "audio"; pure "audio"
  else if m.hasSticker then do bot_send_user uid "sticker"; pure "sticker"
  else if m.hasVideoNote then do bot_send_user uid "video_note"; pure "video_note"
  else pure "text"

/-- Model of `handle_reply` (src/main.py lines 431-562): guard on the
support group and a truthy thread id, reverse-lookup of the correspondent,
dispatch by media type, event logging on success, and on failure a
classified diagnostic notice posted back into the topic, with a failure of
the notice itself caught and only logged. -/
def handle_reply (m : StaffMsg) : M Unit :=
  if m.chatId ≠ SUPPORT_GROUP_ID then pure ()
  else if m.threadId.getD 0 = 0 then pure ()
  else
    let topicId := m.threadId.getD 0
    (do
      let user ← db.users_find_one_by_topic topicId
      match user with
      | none => pure ()
      | some usr =>
        if usr.user_id = "" then pure ()
        else
          tryCatchM (do
              let mt ← dispatchSend usr.user_id m
              db.log_message usr.user_id mt "to_user" m.text)
            (fun e =>
              tryCatchM (bot_reply_thread topicId (errorDetails usr.user_id usr e))
                (fun _ => pure ())))

/-! ## Event sequences and accounting -/

/-- One processed update: which handler the dispatcher invokes and its
payload. -/
inductive Op where
  | inText (u : UpdateMsg)
  | inPhoto (u : UpdateMsg)
  | inVideo (u : UpdateMsg)
  | inDocument (u : UpdateMsg)
  | inVoice (u : UpdateMsg)
  | inAudio (u : UpdateMsg)
  | inSticker (u : UpdateMsg)
  | inVideoNote (u : UpdateMsg)
  | outReply (m : StaffMsg)
deriving DecidableEq, Repr

/-- Dispatch one update to its handler. -/
def runOp : Op → M Unit
  | Op.inText u => handle_text_message u
  | Op.inPhoto u => handle_photo u
  | Op.inVideo u => handle_video u
  | Op.inDocument u => handle_document u
  | Op.inVoice u => handle_voice u
  | Op.inAudio u => handle_audio u
  | Op.inSticker u => handle_sticker u
  | Op.inVideoNote u => handle_video_note u
  | Op.outReply m => handle_reply m

/-- Process a sequence of updates; an exception escaping a handler is
absorbed by the application's error handler (logged), and processing
continues with the next update. -/
def runOps : List Op → S → S
  | [], s => s
  | op :: rest, s => runOps rest ((runOp op) s).2

/-- Whether a recorded call is a forward that the gateway acknowledged. -/
def isOkForward : Call → Bool
  | Call.forwardMsg _ _ _ ok => ok
  | _ => false

/-- Whether a recorded call is a staff-to-correspondent send that the
gateway acknowledged. -/
def isOkSend : Call → Bool
  | Call.sendUser _ _ ok => ok
  | _ => false

/-- Whether a recorded call is a topic creation. -/
def isCreate : Call → Bool
  | Call.createTopic _ _ => true
  | _ => false

/-- Whether a recorded call is a forward attempt (acknowledged or not). -/
def isForwardAttempt : Call → Bool
  | Call.forwardMsg _ _ _ _ => true
  | _ => false

/-- Number of successfully delivered inbound forwards in a trace. -/
def okForwardCount (t : List Call) : Nat := t.countP isOkForward

/-- Number of successfully delivered staff-to-correspondent sends in a trace. -/
def okSendCount (t : List Call) : Nat := t.countP isOkSend

/-- Number of topic creation calls in a trace. -/
def createCount (t : List Call) : Nat := t.countP isCreate

/-- Number of forward attempts in a trace. -/
def forwardAttemptCount (t : List Call) : Nat := t.countP isForwardAttempt

/-- Whether a staff message carries none of the eight recognized media
types, so that the dispatch of `handle_reply` falls through every branch. -/
def noMedia (m : StaffMsg) : Bool :=
  !truthyStr m.text && !m.hasPhoto && !m.hasVideo && !m.hasDocument &&
  !m.hasVoice && !m.hasAudio && !m.hasSticker && !m.hasVideoNote

/-- Whether, in state `s`, the staff message `m` reaches the dispatch of
`handle_reply` with no recognized media type: in that case the source
appends an outbound event although no send primitive ran. -/
def isUnsup (s : S) (m : StaffMsg) : Bool :=
  (m.chatId == SUPPORT_GROUP_ID) && (m.threadId.getD 0 != 0) && !s.findFails &&
  (match findUserByTopic s.users (m.threadId.getD 0) with
   | some usr => usr.user_id != ""
   | none => false) && noMedia m

/-- Number of staff messages of a sequence that reach dispatch with no
recognized media type, evaluated against the state each one runs in. -/
def unsupCount : List Op → S → Nat
  | [], _ => 0
  | op :: rest, s =>
    (match op with
     | Op.outReply m => if isUnsup s m then 1 else 0
     | _ => 0) + unsupCount rest ((runOp op) s).2

/-- Store-level uniqueness of session rows (the unique index on `user_id`). -/
def noDupUsers : List UserRow → Bool
  | [] => true
  | r :: rest => rest.all (fun x => x.user_id != r.user_id) && noDupUsers rest

/-- Number of session rows keyed by a given correspondent. -/
def countUid (l : List UserRow) (uid : String) : Nat :=
  l.countP (fun r => r.user_id == uid)

/-- A run of `n` consecutive `get_or_create_topic` calls for the same
correspondent, collecting the returned topic ids; this is the schedule the
application's sequential update processing admits for n overlapping
inbound events. -/
def iterCalls : Nat → String → String → String → M (List Nat)
  | 0, _, _, _ => pure []
  | n + 1, uid, a, b => do
    let t ← get_or_create_topic uid a b
    let rest ← iterCalls n uid a b
    pure (t :: rest)

/-! ## Derived accounting measures and verification predicates -/

/-- Number of gateway-acknowledged deliveries (forwards plus sends)
recorded so far. -/
def deliveredCount (s : S) : Nat := okForwardCount s.trace + okSendCount s.trace

/-- The media type the dispatch chain of `handle_reply` would select for a
staff message (the residual initial value "text" when nothing matches). -/
def mtypeOf (m : StaffMsg) : String :=
  if truthyStr m.text then "text"
  else if m.hasPhoto then "photo"
  else if m.hasVideo then "video"
  else if m.hasDocument then "document"
  else if m.hasVoice then "voice"
  else if m.hasAudio then "audio"
  else if m.hasSticker then "sticker"
  else if m.hasVideoNote then "video_note"
  else "text"

/-- Whether a recorded call is a staff-to-correspondent send attempt. -/
def isSendAttempt : Call → Bool
  | Call.sendUser _ _ _ => true
  | _ => false

/-- Number of staff-to-correspondent send attempts in a trace. -/
def sendAttemptCount (t : List Call) : Nat := t.countP isSendAttempt

/-- An action that never touches the message log, the delivered count or
the store fault flags, whatever its outcome. -/
def MNeutral {α : Type} (act : M α) : Prop :=
  ∀ s, (act s).2.messages = s.messages ∧ deliveredCount (act s).2 = deliveredCount s ∧
       (act s).2.findFails = s.findFails ∧ (act s).2.saveFails = s.saveFails ∧
       (act s).2.logFails = s.logFails

/-- An action that counts one delivery exactly when it returns
successfully, and never touches the message log or the fault flags. -/
def MDelivers {α : Type} (act : M α) : Prop :=
  ∀ s, (act s).2.messages = s.messages ∧
       deliveredCount (act s).2 =
         deliveredCount s + (match (act s).1 with | Except.ok _ => 1 | Except.error _ => 0) ∧
       (act s).2.findFails = s.findFails ∧ (act s).2.saveFails = s.saveFails ∧
       (act s).2.logFails = s.logFails

/-- An action whose message-log growth equals its delivered-count growth
when the log itself is healthy, preserving the fault flags. -/
def MBalanced {α : Type} (act : M α) : Prop :=
  ∀ s, s.logFails = false →
    (act s).2.messages.length + deliveredCount s =
      s.messages.length + deliveredCount (act s).2 ∧
    (act s).2.findFails = s.findFails ∧ (act s).2.saveFails = s.saveFails ∧
    (act s).2.logFails = s.logFails

/-! ## Concrete inputs used by the witness theorems -/

/-- A private-chat text update from correspondent 42. -/
def wU : UpdateMsg := ⟨"private", 77, "42", some "Alice", some "alice", 9, some "hi", none, none⟩

/-- The same update arriving from a non-private chat. -/
def wUnp : UpdateMsg :=
  ⟨"supergroup", -1002, "42", some "Alice", some "alice", 9, some "hi", none, none⟩

/-- A session row binding correspondent 42 to topic 1. -/
def wRow : UserRow := ⟨"42", 1, "Alice", "alice"⟩

/-- A session row binding correspondent 42 to topic 7. -/
def wRow7 : UserRow := ⟨"42", 7, "Alice", "alice"⟩

/-- A healthy world with an empty store. -/
def wSfresh : S := ⟨[], [], 5, [], [], [], [], [], [], false, false, false, []⟩

/-- A world whose stored topic 1 is gone from the gateway: the next
forward fails with the thread-missing error, everything else succeeds. -/
def wSheal : S := ⟨[wRow], [], 5, [some "Bad Request: message thread not found"],
  [], [], [], [], [], false, false, false, []⟩

/-- A world where the forward into the stored topic fails with the
thread-missing error and the retried forward fails again. -/
def wSheal2 : S := ⟨[wRow], [], 5,
  [some "Bad Request: message thread not found", some "boom"],
  [], [], [], [], [], false, false, false, []⟩

/-- A healthy world with correspondent 42 bound to topic 7. -/
def wSout : S := ⟨[wRow7], [], 9, [], [], [], [], [], [], false, false, false, []⟩

/-- A world where the next staff-to-correspondent send fails because the
recipient blocked the bot. -/
def wSsend : S := ⟨[wRow7], [], 9, [], [], [some "Forbidden: bot was blocked by the user"],
  [], [], [], false, false, false, []⟩

/-- Like `wSsend`, but posting the diagnostic notice also fails. -/
def wSsendN : S := { wSsend with noticeResults := [false] }

/-- A world where the next topic creation fails. -/
def wScfail : S := ⟨[], [], 5, [], [false], [], [], [], [], false, false, false, []⟩

/-- A world whose store lookups fail. -/
def wSffail : S := { wSfresh with findFails := true }

/-- A world whose store upserts fail. -/
def wSsfail : S := { wSfresh with saveFails := true }

/-- A world whose event-log appends fail. -/
def wSlfail : S := { wSout with logFails := true }

/-- A staff message in topic 7 with no recognized media type. -/
def wM0 : StaffMsg := ⟨-1002, some 7, none, false, false, false, false, false, false, false⟩

/-- A staff text message in topic 7. -/
def wMtext : StaffMsg := ⟨-1002, some 7, some "yo", false, false, false, false, false, false,
  false⟩

/-! ## Basic unfolding lemmas for the monad -/

/-- Application of a bind: run the first action, then feed its result to
the continuation unless it raised. -/
theorem bind_app {α β : Type} (x : M α) (f : α → M β) (s : S) :
    (x >>= f) s = match x s with
      | (Except.ok a, s2) => f a s2
      | (Except.error e, s2) => (Except.error e, s2) := rfl

/-- Application of a pure computation. -/
theorem pure_app {α : Type} (a : α) (s : S) :
    (pure a : M α) s = (Except.ok a, s) := rfl

/-! ## Substring lemmas -/

/-- A successful Boolean initial-segment test yields a suffix decomposition. -/
theorem isPref_exists (n h : List Char) (hp : isPref n h = true) :
    ∃ r, h = n ++ r := by
  induction n generalizing h with
  | nil => exact ⟨h, rfl⟩
  | cons a as ih =>
    cases h with
    | nil => simp [isPref] at hp
    | cons b bs =>
      rw [isPref, Bool.and_eq_true] at hp
      obtain ⟨hab, hrest⟩ := hp
      obtain ⟨r, hr⟩ := ih bs hrest
      exact ⟨r, by rw [List.cons_append, ← hr, beq_iff_eq.mp hab]⟩

/-- Every list is an initial segment of itself followed by anything. -/
theorem isPref_self_append (n r : List Char) : isPref n (n ++ r) = true := by
  induction n with
  | nil => rfl
  | cons a as ih => simp [isPref, ih]

/-- The empty needle occurs in every haystack. -/
theorem hasSub_nil (h : List Char) : hasSub h [] = true := by
  cases h with
  | nil => rfl
  | cons a t => rw [hasSub]; simp [isPref]

/-- A needle occurs in any haystack that embeds it between two paddings. -/
theorem hasSub_intro (p n q : List Char) : hasSub (p ++ (n ++ q)) n = true := by
  induction p with
  | nil =>
    simp only [List.nil_append]
    cases hn : n with
    | nil => exact hasSub_nil q
    | cons a as =>
      rw [show (a :: as) ++ q = a :: (as ++ q) from rfl, hasSub]
      have hp := isPref_self_append (a :: as) q
      rw [show (a :: as) ++ q = a :: (as ++ q) from rfl] at hp
      simp [hp]
  | cons x p ih =>
    rw [List.cons_append, hasSub]
    simp [ih]

/-- A successful substring test yields a padding decomposition. -/
theorem hasSub_exists (h n : List Char) (hs : hasSub h n = true) :
    ∃ p q, h = p ++ (n ++ q) := by
  induction h with
  | nil =>
    rw [hasSub] at hs
    cases n with
    | nil => exact ⟨[], [], rfl⟩
    | cons a as => simp [isPref] at hs
  | cons x t ih =>
    rw [hasSub, Bool.or_eq_true] at hs
    cases hs with
    | inl hp =>
      obtain ⟨r, hr⟩ := isPref_exists n (x :: t) hp
      exact ⟨[], r, by rw [hr, List.nil_append]⟩
    | inr hrec =>
      obtain ⟨p, q, hpq⟩ := ih hrec
      exact ⟨x :: p, q, by rw [hpq, List.cons_append]⟩

/-- Substring containment is transitive. -/
theorem hasSub_trans (a b c : List Char) (hab : hasSub a b = true)
    (hbc : hasSub b c = true) : hasSub a c = true := by
  obtain ⟨p, q, hpq⟩ := hasSub_exists a b hab
  obtain ⟨p2, q2, hpq2⟩ := hasSub_exists b c hbc
  rw [hpq, hpq2]
  rw [show p ++ ((p2 ++ (c ++ q2)) ++ q) = (p ++ p2) ++ (c ++ (q2 ++ q)) by
    simp [List.append_assoc]]
  exact hasSub_intro (p ++ p2) c (q2 ++ q)

/-- String-level substring transitivity. -/
theorem strContains_trans (a b c : String) (hab : strContains a b = true)
    (hbc : strContains b c = true) : strContains a c = true :=
  hasSub_trans a.toList b.toList c.toList hab hbc

/-! ## Store-list lemmas -/

/-- Deleting the row for a correspondent from a store satisfying the
unique index leaves no row for it. -/
theorem findUser_deleteFirst (l : List UserRow) (uid : String)
    (hnd : noDupUsers l = true) :
    findUser (deleteFirst l uid) uid = none := by
  induction l with
  | nil => rfl
  | cons r rest ih =>
    simp only [noDupUsers, Bool.and_eq_true, List.all_eq_true] at hnd
    obtain ⟨hall, hrest⟩ := hnd
    by_cases h : r.user_id == uid
    · simp only [deleteFirst, h, if_pos]
      rw [findUser, List.find?_eq_none]
      intro x hx
      have := hall x hx
      simp only [bne_iff_ne, ne_eq] at this
      simp only [beq_iff_eq] at h ⊢
      rw [h] at this
      exact this
    · simp only [deleteFirst, h, if_neg, Bool.false_eq_true, not_false_iff]
      rw [findUser, List.find?_cons_of_neg, ← findUser]
      · exact ih hrest
      · simp only [h, Bool.false_eq_true, not_false_iff]

/-- Upserting into a store with no row for the correspondent makes its
lookup return exactly the inserted row. -/
theorem findUser_upsert_absent (l : List UserRow) (uid : String) (t : Nat) (a b : String)
    (hf : findUser l uid = none) :
    findUser (upsertUsers l uid t a b) uid = some ⟨uid, t, a, b⟩ := by
  induction l with
  | nil => simp [upsertUsers, findUser, List.find?]
  | cons r rest ih =>
    rw [findUser, List.find?] at hf
    by_cases h : r.user_id == uid
    · simp [h] at hf
    · simp only [h] at hf
      simp only [upsertUsers, h, if_neg, Bool.false_eq_true, not_false_iff]
      rw [findUser, List.find?_cons_of_neg, ← findUser]
      · exact ih hf
      · simp only [h, Bool.false_eq_true, not_false_iff]

/-- After upserting into a store with no row for the correspondent, every
row keyed by them is the inserted one. -/
theorem mem_upsert_absent (l : List UserRow) (uid : String) (t : Nat) (a b : String)
    (hf : findUser l uid = none) (r : UserRow)
    (hr : r ∈ upsertUsers l uid t a b) (hid : r.user_id = uid) :
    r = ⟨uid, t, a, b⟩ := by
  induction l with
  | nil =>
    simp only [upsertUsers, List.mem_singleton] at hr
    exact hr
  | cons x rest ih =>
    rw [findUser, List.find?] at hf
    by_cases h : x.user_id == uid
    · simp [h] at hf
    · simp only [h] at hf
      simp only [upsertUsers, h, if_neg, Bool.false_eq_true, not_false_iff,
        List.mem_cons] at hr
      cases hr with
      | inl hx =>
        exfalso
        apply h
        rw [beq_iff_eq, ← hx]
        exact hid
      | inr hx => exact ih hf hx

/-- A correspondent with no session row has row count zero. -/
theorem countUid_eq_zero (l : List UserRow) (uid : String)
    (hf : findUser l uid = none) :
    countUid l uid = 0 := by
  rw [countUid, List.countP_eq_zero]
  rw [findUser, List.find?_eq_none] at hf
  exact hf

/-- Upserting for a correspondent with no session row yields exactly one
row for them. -/
theorem countUid_upsert_absent (l : List UserRow) (uid : String) (t : Nat) (a b : String)
    (hf : findUser l uid = none) :
    countUid (upsertUsers l uid t a b) uid = 1 := by
  induction l with
  | nil => simp [upsertUsers, countUid]
  | cons x rest ih =>
    rw [findUser, List.find?] at hf
    by_cases h : x.user_id == uid
    · simp [h] at hf
    · simp only [h] at hf
      simp only [upsertUsers, h, if_neg, Bool.false_eq_true, not_false_iff]
      rw [countUid, List.countP_cons]
      simp only [h]
      rw [← countUid]
      simp [ih hf]

/-! ## Behaviour of the topic registry -/

/-- Fast path of `get_or_create_topic`: a stored truthy topic id is
returned with no change of state at all (no gateway call, no store write). -/
theorem goc_fast (s : S) (uid a b : String) (row : UserRow)
    (hfind : findUser s.users uid = some row) (ht : row.topic_id ≠ 0)
    (hff : s.findFails = false) :
    get_or_create_topic uid a b s = (Except.ok row.topic_id, s) := by
  simp [get_or_create_topic, db.get_user_topic, hff, hfind, bind_app, pure_app, ht]

/-- Creation path of `get_or_create_topic` under a healthy store and
gateway: it allocates the next topic id, persists the row, posts the
introductory notice, and returns the new id. -/
theorem goc_creates (s : S) (uid a b : String)
    (hfind : findUser s.users uid = none)
    (hff : s.findFails = false) (hsf : s.saveFails = false)
    (hcr : s.createResults = []) (hpr : s.postResults = []) :
    get_or_create_topic uid a b s =
      (Except.ok s.nextTopicId,
       { s with users := upsertUsers s.users uid s.nextTopicId a b,
                nextTopicId := s.nextTopicId + 1,
                trace := s.trace ++ [Call.createTopic ("👤 " ++ a.take 20) true,
                                     Call.postGroup s.nextTopicId (welcomeText uid a b) true] }) := by
  simp [get_or_create_topic, db.get_user_topic, db.save_user_topic, bot_create_forum_topic,
        bot_post_group, hff, hsf, hfind, hcr, hpr, bind_app, pure_app]

/-- Repeated `get_or_create_topic` calls for a correspondent whose session
row already stores a truthy topic id return that id and leave the state
untouched. -/
theorem iter_fast (n : Nat) (uid a b : String) : ∀ (s : S) (row : UserRow),
    findUser s.users uid = some row → row.topic_id ≠ 0 → s.findFails = false →
    iterCalls n uid a b s = (Except.ok (List.replicate n row.topic_id), s) := by
  induction n with
  | zero =>
    intro s row h1 h2 h3
    simp [iterCalls, pure_app]
  | succ k ih =>
    intro s row h1 h2 h3
    simp [iterCalls, bind_app, goc_fast s uid a b row h1 h2 h3, ih s row h1 h2 h3,
      pure_app, List.replicate_succ]

/-! ## Neutrality and delivery bookkeeping of each action -/

theorem mneutral_pure {α : Type} (a : α) : MNeutral (pure a : M α) := by
  intro s; exact ⟨rfl, rfl, rfl, rfl, rfl⟩

theorem mneutral_throw {α : Type} (e : String) : MNeutral (throwM e : M α) := by
  intro s; exact ⟨rfl, rfl, rfl, rfl, rfl⟩

theorem mneutral_bind {α β : Type} {x : M α} {f : α → M β}
    (hx : MNeutral x) (hf : ∀ a, MNeutral (f a)) : MNeutral (x >>= f) := by
  intro s
  rw [bind_app]
  rcases hres : x s with ⟨r, s2⟩
  have hx2 := hx s
  rw [hres] at hx2
  obtain ⟨a1, a2, a3, a4, a5⟩ := hx2
  cases r with
  | ok a =>
    have hf2 := hf a s2
    obtain ⟨b1, b2, b3, b4, b5⟩ := hf2
    exact ⟨b1.trans a1, b2.trans a2, b3.trans a3, b4.trans a4, b5.trans a5⟩
  | error e => exact ⟨a1, a2, a3, a4, a5⟩

theorem mneutral_tryCatch {α : Type} {body : M α} {h : String → M α}
    (hb : MNeutral body) (hh : ∀ e, MNeutral (h e)) : MNeutral (tryCatchM body h) := by
  intro s
  rw [tryCatchM]
  rcases hres : body s with ⟨r, s2⟩
  have hb2 := hb s
  rw [hres] at hb2
  obtain ⟨a1, a2, a3, a4, a5⟩ := hb2
  cases r with
  | ok a => exact ⟨a1, a2, a3, a4, a5⟩
  | error e =>
    have hh2 := hh e s2
    obtain ⟨b1, b2, b3, b4, b5⟩ := hh2
    exact ⟨b1.trans a1, b2.trans a2, b3.trans a3, b4.trans a4, b5.trans a5⟩

theorem mneutral_ite {α : Type} {c : Prop} [Decidable c] {x y : M α}
    (hx : MNeutral x) (hy : MNeutral y) : MNeutral (if c then x else y) := by
  by_cases h : c
  · rw [if_pos h]; exact hx
  · rw [if_neg h]; exact hy

theorem mneutral_reply_user (t : String) : MNeutral (bot_reply_user t) := by
  intro s
  unfold bot_reply_user
  cases h : s.replyResults.headD true <;>
    simp [h, deliveredCount, okForwardCount, okSendCount, List.countP_append, isOkForward,
      isOkSend]

theorem mneutral_reply_thread (tid : Nat) (t : String) : MNeutral (bot_reply_thread tid t) := by
  intro s
  unfold bot_reply_thread
  cases h : s.noticeResults.headD true <;>
    simp [h, deliveredCount, okForwardCount, okSendCount, List.countP_append, isOkForward,
      isOkSend]

theorem mneutral_post_group (tid : Nat) (t : String) : MNeutral (bot_post_group tid t) := by
  intro s
  unfold bot_post_group
  cases h : s.postResults.headD true <;>
    simp [h, deliveredCount, okForwardCount, okSendCount, List.countP_append, isOkForward,
      isOkSend]

theorem mneutral_create (n : String) : MNeutral (bot_create_forum_topic n) := by
  intro s
  unfold bot_create_forum_topic
  cases h : s.createResults.headD true <;>
    simp [h, deliveredCount, okForwardCount, okSendCount, List.countP_append, isOkForward,
      isOkSend]

theorem mneutral_get_user_topic (uid : String) : MNeutral (db.get_user_topic uid) := by
  intro s
  unfold db.get_user_topic
  cases h : s.findFails <;> simp [h]

theorem mneutral_save (uid : String) (t : Nat) (a b : String) :
    MNeutral (db.save_user_topic uid t a b) := by
  intro s
  unfold db.save_user_topic
  cases h : s.saveFails <;> simp [h, deliveredCount]

theorem mneutral_delete (uid : String) : MNeutral (db.users_delete_one uid) := by
  intro s
  unfold db.users_delete_one
  simp [deliveredCount]

theorem mneutral_find_by_topic (tid : Nat) : MNeutral (db.users_find_one_by_topic tid) := by
  intro s
  unfold db.users_find_one_by_topic
  cases h : s.findFails <;> simp [h]

theorem mneutral_auto_reply : MNeutral send_auto_reply := by
  unfold send_auto_reply AUTO_REPLY_ENABLED
  simp only [Bool.not_true, Bool.false_eq_true, if_false]
  exact mneutral_tryCatch (mneutral_reply_user _) (fun _ => mneutral_pure _)

theorem mneutral_goc (uid a b : String) : MNeutral (get_or_create_topic uid a b) := by
  unfold get_or_create_topic
  refine mneutral_bind (mneutral_get_user_topic uid) (fun t => ?_)
  refine mneutral_ite (mneutral_pure _) ?_
  refine mneutral_bind (mneutral_create _) (fun tid => ?_)
  refine mneutral_bind (mneutral_save _ _ _ _) (fun _ => ?_)
  exact mneutral_bind (mneutral_post_group _ _) (fun _ => mneutral_pure _)

theorem mdelivers_forward (fc : Int) (mi tid : Nat) :
    MDelivers (bot_forward_message fc mi tid) := by
  intro s
  unfold bot_forward_message
  cases h : s.forwardResults.headD none <;>
    simp [h, deliveredCount, okForwardCount, okSendCount, List.countP_append, isOkForward,
      isOkSend] <;> omega

theorem mdelivers_send (uid mt : String) : MDelivers (bot_send_user uid mt) := by
  intro s
  unfold bot_send_user
  cases h : s.sendResults.headD none <;>
    simp [h, deliveredCount, okForwardCount, okSendCount, List.countP_append, isOkForward,
      isOkSend] <;> omega

theorem mdelivers_bind_pure {α β : Type} (x : M α) (hx : MDelivers x) (f : α → β) :
    MDelivers (x >>= fun a => pure (f a)) := by
  intro s
  rw [bind_app]
  rcases hres : x s with ⟨r, s2⟩
  have hx2 := hx s
  rw [hres] at hx2
  cases r with
  | ok a => exact hx2
  | error e => exact hx2

theorem mdelivers_fts (uid : String) (fc : Int) (mi tid : Nat) (a b : String) :
    MDelivers (forward_to_support uid fc mi tid a b) := by
  intro s
  unfold forward_to_support tryCatchM
  rw [bind_app]
  rcases h1 : bot_forward_message fc mi tid s with ⟨r1, s1⟩
  have hd1 := mdelivers_forward fc mi tid s
  rw [h1] at hd1
  obtain ⟨d1, d2, d3, d4, d5⟩ := hd1
  cases r1 with
  | ok _ => exact ⟨d1, d2, d3, d4, d5⟩
  | error e =>
    simp only at d2 ⊢
    by_cases hc : (strContains (lowerStr e) "thread not found" ||
        strContains (lowerStr e) "message thread not found") = true
    · rw [if_pos hc]
      rw [bind_app]
      rcases h2 : db.users_delete_one uid s1 with ⟨r2, s2⟩
      have hn2 := mneutral_delete uid s1
      rw [h2] at hn2
      obtain ⟨e1, e2, e3, e4, e5⟩ := hn2
      simp only at e1 e2 e3 e4 e5
      cases r2 with
      | error e' =>
        try simp only
        exact ⟨e1.trans d1, by omega, e3.trans d3, e4.trans d4, e5.trans d5⟩
      | ok _ =>
        try simp only
        rw [bind_app]
        rcases h3 : get_or_create_topic uid a b s2 with ⟨r3, s3⟩
        have hn3 := mneutral_goc uid a b s2
        rw [h3] at hn3
        obtain ⟨f1, f2, f3, f4, f5⟩ := hn3
        simp only at f1 f2 f3 f4 f5
        try simp only
        cases r3 with
        | error e' =>
          try simp only
          exact ⟨f1.trans (e1.trans d1), by omega, f3.trans (e3.trans d3),
            f4.trans (e4.trans d4), f5.trans (e5.trans d5)⟩
        | ok newTid =>
          try simp only
          rw [bind_app]
          rcases h4 : bot_forward_message fc mi newTid s3 with ⟨r4, s4⟩
          have hd4 := mdelivers_forward fc mi newTid s3
          rw [h4] at hd4
          obtain ⟨g1, g2, g3, g4, g5⟩ := hd4
          simp only at g1 g2 g3 g4 g5
          try simp only
          cases r4 with
          | error e' =>
            refine ⟨g1.trans (f1.trans (e1.trans d1)), ?_,
              g3.trans (f3.trans (e3.trans d3)), g4.trans (f4.trans (e4.trans d4)),
              g5.trans (f5.trans (e5.trans d5))⟩
            show deliveredCount s4 = deliveredCount s + 0
            simp only at g2
            omega
          | ok _ =>
            refine ⟨g1.trans (f1.trans (e1.trans d1)), ?_,
              g3.trans (f3.trans (e3.trans d3)), g4.trans (f4.trans (e4.trans d4)),
              g5.trans (f5.trans (e5.trans d5))⟩
            show deliveredCount s4 = deliveredCount s + 1
            simp only at g2
            omega
    · rw [if_neg hc]
      refine ⟨d1, ?_, d3, d4, d5⟩
      simp only [throwM]
      omega

theorem mbalanced_of_neutral {α : Type} {act : M α} (h : MNeutral act) : MBalanced act := by
  intro s _
  obtain ⟨a1, a2, a3, a4, a5⟩ := h s
  exact ⟨by rw [a1, a2], a3, a4, a5⟩

theorem mbalanced_bind {α β : Type} {x : M α} {f : α → M β}
    (hx : MBalanced x) (hf : ∀ a, MBalanced (f a)) : MBalanced (x >>= f) := by
  intro s hlf
  rw [bind_app]
  rcases hres : x s with ⟨r, s2⟩
  have hx2 := hx s hlf
  rw [hres] at hx2
  obtain ⟨a1, a2, a3, a4⟩ := hx2
  simp only at a1 a2 a3 a4
  cases r with
  | ok a =>
    have hf2 := hf a s2 (by rw [a4]; exact hlf)
    obtain ⟨b1, b2, b3, b4⟩ := hf2
    refine ⟨?_, b2.trans a2, b3.trans a3, b4.trans a4⟩
    show (f a s2).2.messages.length + deliveredCount s =
      s.messages.length + deliveredCount (f a s2).2
    omega
  | error e =>
    exact ⟨a1, a2, a3, a4⟩

theorem mbalanced_tryCatch {α : Type} {body : M α} {h : String → M α}
    (hb : MBalanced body) (hh : ∀ e, MBalanced (h e)) : MBalanced (tryCatchM body h) := by
  intro s hlf
  rw [tryCatchM]
  rcases hres : body s with ⟨r, s2⟩
  have hb2 := hb s hlf
  rw [hres] at hb2
  obtain ⟨a1, a2, a3, a4⟩ := hb2
  simp only at a1 a2 a3 a4
  cases r with
  | ok a =>
    exact ⟨a1, a2, a3, a4⟩
  | error e =>
    have hh2 := hh e s2 (by rw [a4]; exact hlf)
    obtain ⟨b1, b2, b3, b4⟩ := hh2
    refine ⟨?_, b2.trans a2, b3.trans a3, b4.trans a4⟩
    show (h e s2).2.messages.length + deliveredCount s =
      s.messages.length + deliveredCount (h e s2).2
    omega

theorem mbalanced_ite {α : Type} {c : Prop} [Decidable c] {x y : M α}
    (hx : MBalanced x) (hy : MBalanced y) : MBalanced (if c then x else y) := by
  by_cases h : c
  · rw [if_pos h]; exact hx
  · rw [if_neg h]; exact hy

theorem mbalanced_deliver_log {α : Type} (del : M α) (hd : MDelivers del)
    (uid dir : String) (mtf : α → String) (content : Option String) :
    MBalanced (del >>= fun a => db.log_message uid (mtf a) dir content) := by
  intro s hlf
  rw [bind_app]
  rcases hres : del s with ⟨r, s2⟩
  have hd2 := hd s
  rw [hres] at hd2
  obtain ⟨a1, a2, a3, a4, a5⟩ := hd2
  simp only at a1 a2 a3 a4 a5
  cases r with
  | ok a =>
    have hlf2 : s2.logFails = false := by rw [a5]; exact hlf
    simp only
    unfold db.log_message
    rw [hlf2]
    simp only [Bool.false_eq_true, if_false]
    refine ⟨?_, a3, a4, by rw [← hlf2]; exact a5⟩
    have hdc : deliveredCount { s2 with
        messages := s2.messages ++ [(⟨uid, mtf a, dir, content⟩ : MessageEvent)] } =
        deliveredCount s2 := rfl
    show (s2.messages ++ [(⟨uid, mtf a, dir, content⟩ : MessageEvent)]).length +
        deliveredCount s =
      s.messages.length + deliveredCount ({ s2 with
        messages := s2.messages ++ [(⟨uid, mtf a, dir, content⟩ : MessageEvent)] } : S)
    rw [hdc, List.length_append, a1]
    simp only [List.length_cons, List.length_nil]
    have a2b : deliveredCount s2 = deliveredCount s + 1 := a2
    omega
  | error e =>
    simp only
    refine ⟨?_, a3, a4, a5⟩
    show s2.messages.length + deliveredCount s = s.messages.length + deliveredCount s2
    have hl : s2.messages.length = s.messages.length := by rw [a1]
    have a2b : deliveredCount s2 = deliveredCount s + 0 := a2
    omega

theorem mbalanced_inboundViaFts (mtype : String) (content errReply : Option String)
    (u : UpdateMsg) : MBalanced (inboundViaFts mtype content errReply u) := by
  unfold inboundViaFts
  refine mbalanced_ite (mbalanced_of_neutral (mneutral_pure _)) ?_
  refine mbalanced_tryCatch ?_ (fun e => ?_)
  · refine mbalanced_bind (mbalanced_of_neutral mneutral_auto_reply) (fun _ => ?_)
    refine mbalanced_bind (mbalanced_of_neutral (mneutral_goc _ _ _)) (fun tid => ?_)
    exact mbalanced_deliver_log _ (mdelivers_fts _ _ _ _ _ _) _ _ _ _
  · cases errReply with
    | some t => exact mbalanced_of_neutral (mneutral_reply_user t)
    | none => exact mbalanced_of_neutral (mneutral_pure _)

theorem mbalanced_inboundDirect (mtype : String) (errReply : Option String)
    (u : UpdateMsg) : MBalanced (inboundDirect mtype errReply u) := by
  unfold inboundDirect
  refine mbalanced_ite (mbalanced_of_neutral (mneutral_pure _)) ?_
  refine mbalanced_tryCatch ?_ (fun e => ?_)
  · refine mbalanced_bind (mbalanced_of_neutral mneutral_auto_reply) (fun _ => ?_)
    refine mbalanced_bind (mbalanced_of_neutral (mneutral_goc _ _ _)) (fun tid => ?_)
    exact mbalanced_deliver_log _ (mdelivers_forward _ _ _) _ _ _ _
  · cases errReply with
    | some t => exact mbalanced_of_neutral (mneutral_reply_user t)
    | none => exact mbalanced_of_neutral (mneutral_pure _)

theorem mdelivers_dispatch (uid : String) (m : StaffMsg) (hm : noMedia m = false) :
    MDelivers (dispatchSend uid m) := by
  unfold dispatchSend
  by_cases h1 : truthyStr m.text = true
  · rw [if_pos h1]; exact mdelivers_bind_pure _ (mdelivers_send _ _) _
  · rw [if_neg h1]
    by_cases h2 : m.hasPhoto = true
    · rw [if_pos h2]; exact mdelivers_bind_pure _ (mdelivers_send _ _) _
    · rw [if_neg h2]
      by_cases h3 : m.hasVideo = true
      · rw [if_pos h3]; exact mdelivers_bind_pure _ (mdelivers_send _ _) _
      · rw [if_neg h3]
        by_cases h4 : m.hasDocument = true
        · rw [if_pos h4]; exact mdelivers_bind_pure _ (mdelivers_send _ _) _
        · rw [if_neg h4]
          by_cases h5 : m.hasVoice = true
          · rw [if_pos h5]; exact mdelivers_bind_pure _ (mdelivers_send _ _) _
          · rw [if_neg h5]
            by_cases h6 : m.hasAudio = true
            · rw [if_pos h6]; exact mdelivers_bind_pure _ (mdelivers_send _ _) _
            · rw [if_neg h6]
              by_cases h7 : m.hasSticker = true
              · rw [if_pos h7]; exact mdelivers_bind_pure _ (mdelivers_send _ _) _
              · rw [if_neg h7]
                by_cases h8 : m.hasVideoNote = true
                · rw [if_pos h8]; exact mdelivers_bind_pure _ (mdelivers_send _ _) _
                · exfalso
                  simp only [Bool.not_eq_true] at h1 h2 h3 h4 h5 h6 h7 h8
                  rw [noMedia, h1, h2, h3, h4, h5, h6, h7, h8] at hm
                  simp at hm

theorem handle_reply_accounting (m : StaffMsg) :
    ∀ s, s.logFails = false →
      (handle_reply m s).2.messages.length + deliveredCount s =
        s.messages.length + deliveredCount (handle_reply m s).2 +
          (if isUnsup s m then 1 else 0) ∧
      (handle_reply m s).2.findFails = s.findFails ∧
      (handle_reply m s).2.saveFails = s.saveFails ∧
      (handle_reply m s).2.logFails = s.logFails := by
  intro s hlf
  unfold handle_reply
  by_cases hg1 : m.chatId ≠ SUPPORT_GROUP_ID
  · rw [if_pos hg1]
    have hu : isUnsup s m = false := by
      simp [isUnsup, beq_eq_false_iff_ne.mpr hg1]
    rw [hu]
    exact ⟨by simp [pure_app], rfl, rfl, rfl⟩
  · rw [if_neg hg1]
    have heq : m.chatId = SUPPORT_GROUP_ID := not_ne_iff.mp hg1
    by_cases hg2 : m.threadId.getD 0 = 0
    · rw [if_pos hg2]
      have hu : isUnsup s m = false := by simp [isUnsup, hg2]
      rw [hu]
      exact ⟨by simp [pure_app], rfl, rfl, rfl⟩
    · rw [if_neg hg2]
      rw [bind_app]
      by_cases hf : s.findFails = true
      · have hu : isUnsup s m = false := by simp [isUnsup, hf]
        rw [hu]
        unfold db.users_find_one_by_topic
        rw [if_pos hf]
        simp
      · have hff : s.findFails = false := by simpa using hf
        unfold db.users_find_one_by_topic
        rw [hff]
        simp only [Bool.false_eq_true, if_false]
        cases hfu : findUserByTopic s.users (m.threadId.getD 0) with
        | none =>
          have hu : isUnsup s m = false := by simp [isUnsup, hfu]
          rw [hu]
          simp [pure_app, hff]
        | some usr =>
          simp only
          by_cases hid : usr.user_id = ""
          · rw [if_pos hid]
            have hu : isUnsup s m = false := by simp [isUnsup, hfu, hid]
            rw [hu]
            simp [pure_app, hff]
          · rw [if_neg hid]
            by_cases hm : noMedia m = true
            · -- unsupported media: the fall-through still logs an event
              have hu : isUnsup s m = true := by
                simp [isUnsup, heq, hg2, hff, hfu, hm, hid]
              rw [hu]
              obtain ⟨n1, n2, n3, n4, n5, n6, n7, n8⟩ :
                  truthyStr m.text = false ∧ m.hasPhoto = false ∧ m.hasVideo = false ∧
                  m.hasDocument = false ∧ m.hasVoice = false ∧ m.hasAudio = false ∧
                  m.hasSticker = false ∧ m.hasVideoNote = false := by
                rw [noMedia] at hm
                simp only [Bool.and_eq_true, Bool.not_eq_true'] at hm
                tauto
              rw [tryCatchM, bind_app]
              unfold dispatchSend
              rw [n1, n2, n3, n4, n5, n6, n7, n8]
              simp only [Bool.false_eq_true, if_false, pure_app]
              unfold db.log_message
              rw [hlf]
              simp only [Bool.false_eq_true, if_false]
              refine ⟨?_, by first | trivial | exact hff, by first | trivial | rfl,
                by first | trivial | exact hlf⟩
              have hdc : deliveredCount { s with
                  messages := s.messages ++
                    [(⟨usr.user_id, "text", "to_user", m.text⟩ : MessageEvent)] } =
                  deliveredCount s := rfl
              show (s.messages ++
                  [(⟨usr.user_id, "text", "to_user", m.text⟩ : MessageEvent)]).length +
                  deliveredCount s =
                s.messages.length + deliveredCount ({ s with
                  messages := s.messages ++
                    [(⟨usr.user_id, "text", "to_user", m.text⟩ : MessageEvent)] } : S) + 1
              rw [hdc, List.length_append]
              simp only [List.length_cons, List.length_nil]
              omega
            · -- a recognized media type: delivered or classified, balanced
              have hmf : noMedia m = false := by simpa using hm
              have hu : isUnsup s m = false := by simp [isUnsup, hmf]
              rw [hu]
              have hbal : MBalanced (tryCatchM
                  (dispatchSend usr.user_id m >>= fun mt =>
                    db.log_message usr.user_id mt "to_user" m.text)
                  (fun e =>
                    tryCatchM (bot_reply_thread (m.threadId.getD 0)
                        (errorDetails usr.user_id usr e))
                      (fun _ => pure ()))) := by
                refine mbalanced_tryCatch ?_ (fun e => ?_)
                · exact mbalanced_deliver_log _ (mdelivers_dispatch _ _ hmf) _ _ _ _
                · exact mbalanced_of_neutral
                    (mneutral_tryCatch (mneutral_reply_thread _ _) (fun _ => mneutral_pure _))
              have hb := hbal s hlf
              obtain ⟨b1, b2, b3, b4⟩ := hb
              exact ⟨by simpa using b1, b2.trans hff, b3, b4⟩

theorem runOp_accounting (op : Op) (s : S) (hlf : s.logFails = false) :
    (runOp op s).2.messages.length + deliveredCount s =
      s.messages.length + deliveredCount (runOp op s).2 +
        (match op with
         | Op.outReply m => if isUnsup s m then 1 else 0
         | _ => 0) ∧
    (runOp op s).2.logFails = s.logFails := by
  cases op with
  | inText u =>
    obtain ⟨b1, _, _, b4⟩ := mbalanced_inboundViaFts "text" u.text
      (some "❌ Sorry, there was an error processing your message. Please try again.") u s hlf
    exact ⟨by simpa using b1, b4⟩
  | inPhoto u =>
    obtain ⟨b1, _, _, b4⟩ := mbalanced_inboundViaFts "photo" u.caption
      (some "❌ Error sending photo. Please try again.") u s hlf
    exact ⟨by simpa using b1, b4⟩
  | inVideo u =>
    obtain ⟨b1, _, _, b4⟩ := mbalanced_inboundViaFts "video" u.caption
      (some "❌ Error sending video. Please try again.") u s hlf
    exact ⟨by simpa using b1, b4⟩
  | inDocument u =>
    obtain ⟨b1, _, _, b4⟩ := mbalanced_inboundViaFts "document" u.docFileName
      (some "❌ Error sending file. Please try again.") u s hlf
    exact ⟨by simpa using b1, b4⟩
  | inVoice u =>
    obtain ⟨b1, _, _, b4⟩ := mbalanced_inboundDirect "voice"
      (some "❌ Error sending voice message. Please try again.") u s hlf
    exact ⟨by simpa using b1, b4⟩
  | inAudio u =>
    obtain ⟨b1, _, _, b4⟩ := mbalanced_inboundViaFts "audio" none
      (some "❌ Error sending audio. Please try again.") u s hlf
    exact ⟨by simpa using b1, b4⟩
  | inSticker u =>
    obtain ⟨b1, _, _, b4⟩ := mbalanced_inboundViaFts "sticker" none none u s hlf
    exact ⟨by simpa using b1, b4⟩
  | inVideoNote u =>
    obtain ⟨b1, _, _, b4⟩ := mbalanced_inboundDirect "video_note" none u s hlf
    exact ⟨by simpa using b1, b4⟩
  | outReply m =>
    obtain ⟨b1, _, _, b4⟩ := handle_reply_accounting m s hlf
    exact ⟨b1, b4⟩

theorem runOps_accounting (ops : List Op) : ∀ s : S, s.logFails = false →
    (runOps ops s).messages.length + deliveredCount s =
      s.messages.length + deliveredCount (runOps ops s) + unsupCount ops s ∧
    (runOps ops s).logFails = s.logFails := by
  induction ops with
  | nil =>
    intro s _
    simp [runOps, unsupCount]
  | cons op rest ih =>
    intro s hlf
    obtain ⟨b1, b4⟩ := runOp_accounting op s hlf
    obtain ⟨c1, c4⟩ := ih ((runOp op) s).2 (by rw [b4]; exact hlf)
    constructor
    · simp only [runOps, unsupCount]
      omega
    · simp only [runOps]
      exact c4.trans b4

theorem dispatch_fail (uid : String) (m : StaffMsg) (hmed : noMedia m = false)
    (err : String) (rest : List (Option String)) (s : S)
    (hs : s.sendResults = some err :: rest) :
    dispatchSend uid m s = (Except.error err,
      { s with sendResults := rest,
               trace := s.trace ++ [Call.sendUser uid (mtypeOf m) false] }) := by
  unfold dispatchSend mtypeOf
  by_cases h1 : truthyStr m.text = true
  · simp [h1, bot_send_user, hs, bind_app]
  · by_cases h2 : m.hasPhoto = true
    · simp [h1, h2, bot_send_user, hs, bind_app]
    · by_cases h3 : m.hasVideo = true
      · simp [h1, h2, h3, bot_send_user, hs, bind_app]
      · by_cases h4 : m.hasDocument = true
        · simp [h1, h2, h3, h4, bot_send_user, hs, bind_app]
        · by_cases h5 : m.hasVoice = true
          · simp [h1, h2, h3, h4, h5, bot_send_user, hs, bind_app]
          · by_cases h6 : m.hasAudio = true
            · simp [h1, h2, h3, h4, h5, h6, bot_send_user, hs, bind_app]
            · by_cases h7 : m.hasSticker = true
              · simp [h1, h2, h3, h4, h5, h6, h7, bot_send_user, hs, bind_app]
              · by_cases h8 : m.hasVideoNote = true
                · simp [h1, h2, h3, h4, h5, h6, h7, h8, bot_send_user, hs, bind_app]
                · exfalso
                  simp only [Bool.not_eq_true] at h1 h2 h3 h4 h5 h6 h7 h8
                  rw [noMedia, h1, h2, h3, h4, h5, h6, h7, h8] at hmed
                  simp at hmed


/-! ## Claim theorems -/

/-- C1: self-healing. If an inbound relay finds a session binding the
correspondent to channel C, the forward into C fails with a thread-missing
error, and the repair succeeds, then the event completes successfully, the
old binding to C is gone (every remaining row for the correspondent holds
the freshly created id), the correspondent is bound to the fresh id, which
differs from C, and the message was forwarded into the fresh channel. -/
theorem C1_self_healing (s : S) (u : UpdateMsg) (row : UserRow) (e : String)
    (hpriv : u.chatType = "private")
    (hfind : findUser s.users u.userId = some row)
    (ht : row.topic_id ≠ 0)
    (hnd : noDupUsers s.users = true)
    (hlt : row.topic_id < s.nextTopicId)
    (herr : strContains (lowerStr e) "thread not found" = true)
    (hfw : s.forwardResults = [some e])
    (hcr : s.createResults = []) (hpr : s.postResults = []) (hrr : s.replyResults = [])
    (hff : s.findFails = false) (hsf : s.saveFails = false) (hlf : s.logFails = false) :
    (handle_text_message u s).1 = Except.ok () ∧
    s.nextTopicId ≠ row.topic_id ∧
    findUser (handle_text_message u s).2.users u.userId =
      some ⟨u.userId, s.nextTopicId, orStr u.firstName "User", orStr u.username "no_username"⟩ ∧
    (∀ r ∈ (handle_text_message u s).2.users, r.user_id = u.userId →
      r.topic_id = s.nextTopicId) ∧
    Call.forwardMsg u.chatId u.msgId s.nextTopicId true ∈ (handle_text_message u s).2.trace := by
  have hdel : findUser (deleteFirst s.users u.userId) u.userId = none :=
    findUser_deleteFirst _ _ hnd
  have hup := findUser_upsert_absent (deleteFirst s.users u.userId) u.userId s.nextTopicId
    (orStr u.firstName "User") (orStr u.username "no_username") hdel
  refine ⟨?_, Nat.ne_of_gt hlt, ?_, ?_, ?_⟩
  · simp [handle_text_message, inboundViaFts, hpriv, send_auto_reply, AUTO_REPLY_ENABLED,
      tryCatchM, bot_reply_user, get_or_create_topic, db.get_user_topic, db.save_user_topic,
      db.users_delete_one, db.log_message, bot_create_forum_topic, bot_post_group,
      bot_forward_message, forward_to_support, throwM, hff, hsf, hlf, hfind, ht, hfw, hcr, hpr,
      hrr, herr, hdel, bind_app, pure_app]
  · simp [handle_text_message, inboundViaFts, hpriv, send_auto_reply, AUTO_REPLY_ENABLED,
      tryCatchM, bot_reply_user, get_or_create_topic, db.get_user_topic, db.save_user_topic,
      db.users_delete_one, db.log_message, bot_create_forum_topic, bot_post_group,
      bot_forward_message, forward_to_support, throwM, hff, hsf, hlf, hfind, ht, hfw, hcr, hpr,
      hrr, herr, hdel, hup, bind_app, pure_app]
  · intro r hr hid
    simp [handle_text_message, inboundViaFts, hpriv, send_auto_reply, AUTO_REPLY_ENABLED,
      tryCatchM, bot_reply_user, get_or_create_topic, db.get_user_topic, db.save_user_topic,
      db.users_delete_one, db.log_message, bot_create_forum_topic, bot_post_group,
      bot_forward_message, forward_to_support, throwM, hff, hsf, hlf, hfind, ht, hfw, hcr, hpr,
      hrr, herr, hdel, bind_app, pure_app] at hr
    have hre := mem_upsert_absent _ _ _ _ _ hdel r hr hid
    rw [hre]
  · simp [handle_text_message, inboundViaFts, hpriv, send_auto_reply, AUTO_REPLY_ENABLED,
      tryCatchM, bot_reply_user, get_or_create_topic, db.get_user_topic, db.save_user_topic,
      db.users_delete_one, db.log_message, bot_create_forum_topic, bot_post_group,
      bot_forward_message, forward_to_support, throwM, hff, hsf, hlf, hfind, ht, hfw, hcr, hpr,
      hrr, herr, hdel, bind_app, pure_app]

/-- Witness for C1 at a concrete world: topic 1 is missing, the repair
rebinds correspondent 42 to the fresh topic 5 and forwards into it. -/
theorem C1_self_healing_witness :
    (handle_text_message wU wSheal).1 = Except.ok () ∧
    wSheal.nextTopicId ≠ wRow.topic_id ∧
    findUser (handle_text_message wU wSheal).2.users wU.userId =
      some ⟨wU.userId, wSheal.nextTopicId, orStr wU.firstName "User",
        orStr wU.username "no_username"⟩ ∧
    (∀ r ∈ (handle_text_message wU wSheal).2.users, r.user_id = wU.userId →
      r.topic_id = wSheal.nextTopicId) ∧
    Call.forwardMsg wU.chatId wU.msgId wSheal.nextTopicId true
      ∈ (handle_text_message wU wSheal).2.trace :=
  C1_self_healing wSheal wU wRow "Bad Request: message thread not found" (by decide)
    (by decide) (by decide) (by decide) (by decide) (by decide) (by decide) (by decide)
    (by decide) (by decide) (by decide) (by decide) (by decide)

/-- C2: bounded repair. When the forward fails with a thread-missing error
and the retried forward after the single repair fails again, the event
performs exactly two forward attempts and one repair channel creation, no
event is logged (the message is dropped), and the handler absorbs the
failure, replying with the error text instead. -/
theorem C2_bounded_repair (s : S) (u : UpdateMsg) (row : UserRow) (e1 e2 : String)
    (hpriv : u.chatType = "private")
    (hfind : findUser s.users u.userId = some row)
    (ht : row.topic_id ≠ 0)
    (hnd : noDupUsers s.users = true)
    (herr : strContains (lowerStr e1) "thread not found" = true)
    (hfw : s.forwardResults = [some e1, some e2])
    (hcr : s.createResults = []) (hpr : s.postResults = []) (hrr : s.replyResults = [])
    (hff : s.findFails = false) (hsf : s.saveFails = false) (hlf : s.logFails = false) :
    (handle_text_message u s).1 = Except.ok () ∧
    (handle_text_message u s).2.messages = s.messages ∧
    forwardAttemptCount (handle_text_message u s).2.trace =
      forwardAttemptCount s.trace + 2 ∧
    createCount (handle_text_message u s).2.trace = createCount s.trace + 1 ∧
    Call.replyUser "❌ Sorry, there was an error processing your message. Please try again."
      true ∈ (handle_text_message u s).2.trace := by
  have hdel : findUser (deleteFirst s.users u.userId) u.userId = none :=
    findUser_deleteFirst _ _ hnd
  refine ⟨?_, ?_, ?_, ?_, ?_⟩ <;>
    simp [handle_text_message, inboundViaFts, hpriv, send_auto_reply, AUTO_REPLY_ENABLED,
      tryCatchM, bot_reply_user, get_or_create_topic, db.get_user_topic, db.save_user_topic,
      db.users_delete_one, db.log_message, bot_create_forum_topic, bot_post_group,
      bot_forward_message, forward_to_support, throwM, hff, hsf, hlf, hfind, ht, hfw, hcr, hpr,
      hrr, herr, hdel, bind_app, pure_app, forwardAttemptCount, createCount,
      List.countP_append, List.countP_cons, isForwardAttempt, isCreate]

/-- Witness for C2 at a concrete world: both forwards fail, two attempts
and one repair creation happen, nothing is logged. -/
theorem C2_bounded_repair_witness :
    (handle_text_message wU wSheal2).1 = Except.ok () ∧
    (handle_text_message wU wSheal2).2.messages = wSheal2.messages ∧
    forwardAttemptCount (handle_text_message wU wSheal2).2.trace =
      forwardAttemptCount wSheal2.trace + 2 ∧
    createCount (handle_text_message wU wSheal2).2.trace = createCount wSheal2.trace + 1 ∧
    Call.replyUser "❌ Sorry, there was an error processing your message. Please try again."
      true ∈ (handle_text_message wU wSheal2).2.trace :=
  C2_bounded_repair wSheal2 wU wRow "Bad Request: message thread not found" "boom"
    (by decide) (by decide) (by decide) (by decide) (by decide) (by decide) (by decide)
    (by decide) (by decide) (by decide) (by decide) (by decide)

/-- C3 counterexample: the claim as stated is false on the code. An error
containing "can\x27t initiate conversation" (without the leading "bot") is
classified Unknown, not CannotInitiateConversation, because the source
matches the longer substring "bot can\x27t initiate conversation"; and an
error containing none of the five substrings the claim lists is
classified RecipientAccountMissing, not Unknown, because the source also
matches "user not found". -/
theorem C3_classify_counterexample :
    strContains (lowerStr "user can\x27t initiate conversation")
      "can\x27t initiate conversation" = true ∧
    classify "user can\x27t initiate conversation" =
      Notice.unknown "user can\x27t initiate conversation" ∧
    strContains (lowerStr "recipient user not found") "blocked" = false ∧
    strContains (lowerStr "recipient user not found") "chat not found" = false ∧
    strContains (lowerStr "recipient user not found") "can\x27t initiate conversation" = false ∧
    strContains (lowerStr "recipient user not found") "forbidden" = false ∧
    classify "recipient user not found" = Notice.recipientAccountMissing := by decide

/-- C3 amended: classification is total over the lowered error text,
matched in source order: "blocked" gives RecipientBlocked; otherwise
"chat not found" or "user not found" gives RecipientAccountMissing;
otherwise "bot can\x27t initiate conversation" gives
CannotInitiateConversation; otherwise "forbidden" gives Forbidden; any
other message gives Unknown embedding the raw error text. -/
theorem C3_classify_amended (e : String) :
    (strContains (lowerStr e) "blocked" = true → classify e = Notice.recipientBlocked) ∧
    (strContains (lowerStr e) "blocked" = false →
      (strContains (lowerStr e) "chat not found" = true ∨
       strContains (lowerStr e) "user not found" = true) →
      classify e = Notice.recipientAccountMissing) ∧
    (strContains (lowerStr e) "blocked" = false →
      strContains (lowerStr e) "chat not found" = false →
      strContains (lowerStr e) "user not found" = false →
      strContains (lowerStr e) "bot can\x27t initiate conversation" = true →
      classify e = Notice.cannotInitiateConversation) ∧
    (strContains (lowerStr e) "blocked" = false →
      strContains (lowerStr e) "chat not found" = false →
      strContains (lowerStr e) "user not found" = false →
      strContains (lowerStr e) "bot can\x27t initiate conversation" = false →
      strContains (lowerStr e) "forbidden" = true →
      classify e = Notice.forbidden) ∧
    (strContains (lowerStr e) "blocked" = false →
      strContains (lowerStr e) "chat not found" = false →
      strContains (lowerStr e) "user not found" = false →
      strContains (lowerStr e) "bot can\x27t initiate conversation" = false →
      strContains (lowerStr e) "forbidden" = false →
      classify e = Notice.unknown e) := by
  have hbw : strContains (lowerStr e) "blocked" = false →
      strContains (lowerStr e) "bot was blocked" = false := by
    intro h
    cases hx : strContains (lowerStr e) "bot was blocked"
    · rfl
    · exact absurd (strContains_trans _ "bot was blocked" "blocked" hx (by decide))
        (by simp [h])
  refine ⟨?_, ?_, ?_, ?_, ?_⟩
  · intro h
    simp [classify, h]
  · intro hb hcu
    cases hcu with
    | inl h => simp [classify, hb, hbw hb, h]
    | inr h => simp [classify, hb, hbw hb, h]
  · intro hb hc hu hbi
    simp [classify, hb, hbw hb, hc, hu, hbi]
  · intro hb hc hu hbi hf
    simp [classify, hb, hbw hb, hc, hu, hbi, hf]
  · intro hb hc hu hbi hf
    simp [classify, hb, hbw hb, hc, hu, hbi, hf]

/-- Witness for the amended C3 at a concrete error text containing
"blocked". -/
theorem C3_classify_amended_witness :
    strContains (lowerStr "user is blocked") "blocked" = true ∧
    classify "user is blocked" = Notice.recipientBlocked :=
  ⟨by decide, (C3_classify_amended "user is blocked").1 (by decide)⟩

/-- C4 counterexample: a staff message with no recognized media type in a
bound topic appends an outbound event although nothing was delivered, so
the event-log length exceeds the number of successfully delivered
messages. -/
theorem C4_event_log_counterexample :
    (runOps [Op.outReply wM0] wSout).messages.length = 1 ∧
    okForwardCount (runOps [Op.outReply wM0] wSout).trace +
      okSendCount (runOps [Op.outReply wM0] wSout).trace = 0 := by decide

/-- C4 amended: after any sequence of inbound and outbound operations from
a fresh log and trace with a healthy event log, the number of appended
MessageEvent records equals the number of successfully delivered messages
(acknowledged forwards plus acknowledged sends) plus the number of staff
messages of unsupported media types that reached dispatch, each of which
appends an event with no delivery; failed or dropped messages never
append an event. -/
theorem C4_event_log_amended (ops : List Op) (s : S)
    (hm : s.messages = []) (ht : s.trace = []) (hlf : s.logFails = false) :
    (runOps ops s).messages.length =
      okForwardCount (runOps ops s).trace + okSendCount (runOps ops s).trace +
        unsupCount ops s := by
  have h := (runOps_accounting ops s hlf).1
  simp only [deliveredCount, ht, hm, List.countP_nil, List.length_nil, okForwardCount,
    okSendCount] at h
  simp only [okForwardCount, okSendCount]
  omega

/-- Witness for the amended C4: one inbound text from a fresh world yields
one logged event, one acknowledged forward and no unsupported dispatch. -/
theorem C4_event_log_amended_witness :
    (runOps [Op.inText wU] wSfresh).messages.length =
      okForwardCount (runOps [Op.inText wU] wSfresh).trace +
        okSendCount (runOps [Op.inText wU] wSfresh).trace +
        unsupCount [Op.inText wU] wSfresh :=
  C4_event_log_amended [Op.inText wU] wSfresh rfl rfl rfl

/-- C5: uniqueness. Under the application's sequential processing of
updates (the only schedule the source's event loop admits), N overlapping
resolve-or-create calls for the same correspondent starting from a store
without a session yield exactly one channel creation, every call returns
that same channel id, and the store ends with exactly one session row for
the correspondent. -/
theorem C5_uniqueness (s : S) (uid a b : String) (n : Nat)
    (hfind : findUser s.users uid = none)
    (hnz : s.nextTopicId ≠ 0)
    (hff : s.findFails = false) (hsf : s.saveFails = false)
    (hcr : s.createResults = []) (hpr : s.postResults = []) :
    (iterCalls (n + 1) uid a b s).1 =
      Except.ok (List.replicate (n + 1) s.nextTopicId) ∧
    createCount (iterCalls (n + 1) uid a b s).2.trace = createCount s.trace + 1 ∧
    countUid (iterCalls (n + 1) uid a b s).2.users uid = 1 := by
  have hcre := goc_creates s uid a b hfind hff hsf hcr hpr
  have hfind1 : findUser (upsertUsers s.users uid s.nextTopicId a b) uid =
      some ⟨uid, s.nextTopicId, a, b⟩ := findUser_upsert_absent _ _ _ _ _ hfind
  have hiter := iter_fast n uid a b
    ({ s with users := upsertUsers s.users uid s.nextTopicId a b,
              nextTopicId := s.nextTopicId + 1,
              trace := s.trace ++ [Call.createTopic ("👤 " ++ a.take 20) true,
                                   Call.postGroup s.nextTopicId (welcomeText uid a b) true] })
    ⟨uid, s.nextTopicId, a, b⟩ (by simpa using hfind1) hnz (by simpa using hff)
  refine ⟨?_, ?_, ?_⟩ <;>
    simp [iterCalls, bind_app, hcre, hiter, pure_app, List.replicate_succ, createCount,
      List.countP_append, List.countP_cons, isCreate,
      countUid_upsert_absent s.users uid s.nextTopicId a b hfind]

/-- Witness for C5 with three calls from a fresh world: one creation,
every call observing topic 5, one session row. -/
theorem C5_uniqueness_witness :
    (iterCalls (2 + 1) "42" "Alice" "alice" wSfresh).1 =
      Except.ok (List.replicate (2 + 1) wSfresh.nextTopicId) ∧
    createCount (iterCalls (2 + 1) "42" "Alice" "alice" wSfresh).2.trace =
      createCount wSfresh.trace + 1 ∧
    countUid (iterCalls (2 + 1) "42" "Alice" "alice" wSfresh).2.users "42" = 1 :=
  C5_uniqueness wSfresh "42" "Alice" "alice" 2 (by decide) (by decide) (by decide)
    (by decide) (by decide) (by decide)

/-- C6: channel-creation atomicity. When no session exists and the
gateway's channel creation fails, the error propagates out of the topic
registry with the store untouched, and the triggering inbound relay fails:
the handler absorbs the error, no forward is attempted, no session row is
persisted and no event is appended. -/
theorem C6_creation_atomicity (s : S) (u : UpdateMsg) (cs : List Bool)
    (hpriv : u.chatType = "private")
    (hfind : findUser s.users u.userId = none)
    (hff : s.findFails = false)
    (hcr : s.createResults = false :: cs)
    (hrr : s.replyResults = []) :
    (get_or_create_topic u.userId (orStr u.firstName "User")
        (orStr u.username "no_username") s).1 = Except.error "topic creation failed" ∧
    (get_or_create_topic u.userId (orStr u.firstName "User")
        (orStr u.username "no_username") s).2.users = s.users ∧
    (get_or_create_topic u.userId (orStr u.firstName "User")
        (orStr u.username "no_username") s).2.messages = s.messages ∧
    (handle_text_message u s).1 = Except.ok () ∧
    (handle_text_message u s).2.users = s.users ∧
    (handle_text_message u s).2.messages = s.messages ∧
    forwardAttemptCount (handle_text_message u s).2.trace = forwardAttemptCount s.trace := by
  refine ⟨?_, ?_, ?_, ?_, ?_, ?_, ?_⟩ <;>
    simp [handle_text_message, inboundViaFts, hpriv, send_auto_reply, AUTO_REPLY_ENABLED,
      tryCatchM, bot_reply_user, get_or_create_topic, db.get_user_topic, db.save_user_topic,
      db.users_delete_one, db.log_message, bot_create_forum_topic, bot_post_group,
      bot_forward_message, forward_to_support, throwM, hff, hfind, hcr, hrr,
      bind_app, pure_app, forwardAttemptCount, List.countP_append, List.countP_cons,
      isForwardAttempt]

/-- Witness for C6 at a concrete world whose next topic creation fails. -/
theorem C6_creation_atomicity_witness :
    (get_or_create_topic wU.userId (orStr wU.firstName "User")
        (orStr wU.username "no_username") wScfail).1 = Except.error "topic creation failed" ∧
    (get_or_create_topic wU.userId (orStr wU.firstName "User")
        (orStr wU.username "no_username") wScfail).2.users = wScfail.users ∧
    (get_or_create_topic wU.userId (orStr wU.firstName "User")
        (orStr wU.username "no_username") wScfail).2.messages = wScfail.messages ∧
    (handle_text_message wU wScfail).1 = Except.ok () ∧
    (handle_text_message wU wScfail).2.users = wScfail.users ∧
    (handle_text_message wU wScfail).2.messages = wScfail.messages ∧
    forwardAttemptCount (handle_text_message wU wScfail).2.trace =
      forwardAttemptCount wScfail.trace :=
  C6_creation_atomicity wScfail wU [] (by decide) (by decide) (by decide) (by decide)
    (by decide)

/-- A store-lookup failure aborts the relay before any forward or channel
creation; the handler catches it and the store is untouched. -/
theorem relay_lookup_fatal (s : S) (u : UpdateMsg)
    (hpriv : u.chatType = "private")
    (hff : s.findFails = true)
    (hrr : s.replyResults = []) :
    (handle_text_message u s).1 = Except.ok () ∧
    (handle_text_message u s).2.users = s.users ∧
    (handle_text_message u s).2.messages = s.messages ∧
    forwardAttemptCount (handle_text_message u s).2.trace = forwardAttemptCount s.trace ∧
    createCount (handle_text_message u s).2.trace = createCount s.trace := by
  refine ⟨?_, ?_, ?_, ?_, ?_⟩ <;>
    simp [handle_text_message, inboundViaFts, hpriv, send_auto_reply, AUTO_REPLY_ENABLED,
      tryCatchM, bot_reply_user, get_or_create_topic, db.get_user_topic, hff, hrr,
      bind_app, pure_app, forwardAttemptCount, createCount, List.countP_append,
      List.countP_cons, isForwardAttempt, isCreate]

/-- A store-upsert failure is absorbed inside the store layer: the event
continues, the message is still forwarded and logged, but no session row
is persisted. -/
theorem relay_upsert_absorbed (s : S) (u : UpdateMsg)
    (hpriv : u.chatType = "private")
    (hsf : s.saveFails = true)
    (hfind : findUser s.users u.userId = none)
    (hff : s.findFails = false) (hlf : s.logFails = false)
    (hfw : s.forwardResults = []) (hcr : s.createResults = [])
    (hpr : s.postResults = []) (hrr : s.replyResults = []) :
    (handle_text_message u s).1 = Except.ok () ∧
    okForwardCount (handle_text_message u s).2.trace = okForwardCount s.trace + 1 ∧
    (handle_text_message u s).2.messages.length = s.messages.length + 1 ∧
    (handle_text_message u s).2.users = s.users := by
  refine ⟨?_, ?_, ?_, ?_⟩ <;>
    simp [handle_text_message, inboundViaFts, hpriv, send_auto_reply, AUTO_REPLY_ENABLED,
      tryCatchM, bot_reply_user, get_or_create_topic, db.get_user_topic, db.save_user_topic,
      db.log_message, bot_create_forum_topic, bot_post_group, bot_forward_message,
      forward_to_support, throwM, hff, hsf, hlf, hfind, hfw, hcr, hpr, hrr,
      bind_app, pure_app, okForwardCount, List.countP_append, List.countP_cons, isOkForward]

/-- An event-append failure is absorbed inside the store layer: the event
completes and the message is delivered, only the log entry is lost. -/
theorem relay_append_absorbed (s : S) (u : UpdateMsg) (row : UserRow)
    (hpriv : u.chatType = "private")
    (hlf : s.logFails = true)
    (hfind : findUser s.users u.userId = some row) (ht : row.topic_id ≠ 0)
    (hff : s.findFails = false)
    (hfw : s.forwardResults = []) (hrr : s.replyResults = []) :
    (handle_text_message u s).1 = Except.ok () ∧
    okForwardCount (handle_text_message u s).2.trace = okForwardCount s.trace + 1 ∧
    (handle_text_message u s).2.messages = s.messages := by
  refine ⟨?_, ?_, ?_⟩ <;>
    simp [handle_text_message, inboundViaFts, hpriv, send_auto_reply, AUTO_REPLY_ENABLED,
      tryCatchM, bot_reply_user, get_or_create_topic, db.get_user_topic, db.log_message,
      bot_forward_message, forward_to_support, throwM, hff, hlf, hfind, ht, hfw, hrr,
      bind_app, pure_app, okForwardCount, List.countP_append, List.countP_cons, isOkForward]

/-- C7 counterexample: the claim as stated is false on the code. With the
store upsert failing, the inbound event is not dropped: the topic is
created, the welcome notice posted, the message forwarded (a subsequent
Gateway call) and the event logged, while no session row is persisted. -/
theorem C7_store_failure_counterexample :
    (handle_text_message wU wSsfail).1 = Except.ok () ∧
    (handle_text_message wU wSsfail).2.users = [] ∧
    (handle_text_message wU wSsfail).2.messages.length = 1 ∧
    okForwardCount (handle_text_message wU wSsfail).2.trace = 1 := by decide

/-- C7 amended: only failures of the session-store lookup are fatal for
the current event (the relay is aborted with no forward and no creation,
the handler logs and replies, and the process survives); failures of the
upsert and of the event append are caught inside the store layer and
absorbed, the event proceeding to completion. -/
theorem C7_store_failure_amended :
    (∀ (s : S) (u : UpdateMsg), u.chatType = "private" → s.findFails = true →
      s.replyResults = [] →
      (handle_text_message u s).1 = Except.ok () ∧
      (handle_text_message u s).2.users = s.users ∧
      (handle_text_message u s).2.messages = s.messages ∧
      forwardAttemptCount (handle_text_message u s).2.trace = forwardAttemptCount s.trace ∧
      createCount (handle_text_message u s).2.trace = createCount s.trace) ∧
    (∀ (s : S) (u : UpdateMsg), u.chatType = "private" → s.saveFails = true →
      findUser s.users u.userId = none → s.findFails = false → s.logFails = false →
      s.forwardResults = [] → s.createResults = [] → s.postResults = [] →
      s.replyResults = [] →
      (handle_text_message u s).1 = Except.ok () ∧
      okForwardCount (handle_text_message u s).2.trace = okForwardCount s.trace + 1 ∧
      (handle_text_message u s).2.messages.length = s.messages.length + 1 ∧
      (handle_text_message u s).2.users = s.users) ∧
    (∀ (s : S) (u : UpdateMsg) (row : UserRow), u.chatType = "private" →
      s.logFails = true → findUser s.users u.userId = some row → row.topic_id ≠ 0 →
      s.findFails = false → s.forwardResults = [] → s.replyResults = [] →
      (handle_text_message u s).1 = Except.ok () ∧
      okForwardCount (handle_text_message u s).2.trace = okForwardCount s.trace + 1 ∧
      (handle_text_message u s).2.messages = s.messages) :=
  ⟨fun s u h1 h2 h3 => relay_lookup_fatal s u h1 h2 h3,
   fun s u h1 h2 h3 h4 h5 h6 h7 h8 h9 =>
     relay_upsert_absorbed s u h1 h2 h3 h4 h5 h6 h7 h8 h9,
   fun s u row h1 h2 h3 h4 h5 h6 h7 =>
     relay_append_absorbed s u row h1 h2 h3 h4 h5 h6 h7⟩

/-- Witness for the amended C7, instantiating all three store-failure
modes at concrete worlds. -/
theorem C7_store_failure_amended_witness :
    ((handle_text_message wU wSffail).1 = Except.ok () ∧
     (handle_text_message wU wSffail).2.users = wSffail.users ∧
     (handle_text_message wU wSffail).2.messages = wSffail.messages ∧
     forwardAttemptCount (handle_text_message wU wSffail).2.trace =
       forwardAttemptCount wSffail.trace ∧
     createCount (handle_text_message wU wSffail).2.trace = createCount wSffail.trace) ∧
    ((handle_text_message wU wSsfail).1 = Except.ok () ∧
     okForwardCount (handle_text_message wU wSsfail).2.trace =
       okForwardCount wSsfail.trace + 1 ∧
     (handle_text_message wU wSsfail).2.messages.length = wSsfail.messages.length + 1 ∧
     (handle_text_message wU wSsfail).2.users = wSsfail.users) ∧
    ((handle_text_message wU wSlfail).1 = Except.ok () ∧
     okForwardCount (handle_text_message wU wSlfail).2.trace =
       okForwardCount wSlfail.trace + 1 ∧
     (handle_text_message wU wSlfail).2.messages = wSlfail.messages) :=
  ⟨C7_store_failure_amended.1 wSffail wU (by decide) (by decide) (by decide),
   C7_store_failure_amended.2.1 wSsfail wU (by decide) (by decide) (by decide) (by decide)
     (by decide) (by decide) (by decide) (by decide) (by decide),
   C7_store_failure_amended.2.2 wSlfail wU wRow7 (by decide) (by decide) (by decide)
     (by decide) (by decide) (by decide) (by decide)⟩

/-- C8: outbound failure absorption. When a staff reply's send to the
correspondent fails, the handler ends successfully (the error never
escapes), makes exactly one send attempt with no delivery (no retry), and
posts the classified diagnostic notice into the originating topic without
logging an event; and even when posting the notice itself fails, the
handler still ends successfully. -/
theorem C8_outbound_absorption (s : S) (m : StaffMsg) (usr : UserRow) (err : String)
    (hg : m.chatId = SUPPORT_GROUP_ID)
    (htid : m.threadId.getD 0 ≠ 0)
    (hff : s.findFails = false)
    (hfu : findUserByTopic s.users (m.threadId.getD 0) = some usr)
    (hid : usr.user_id ≠ "")
    (hmed : noMedia m = false)
    (hsend : s.sendResults = [some err]) :
    (s.noticeResults = [] →
      (handle_reply m s).1 = Except.ok () ∧
      sendAttemptCount (handle_reply m s).2.trace = sendAttemptCount s.trace + 1 ∧
      okSendCount (handle_reply m s).2.trace = okSendCount s.trace ∧
      Call.replyThread (m.threadId.getD 0) (errorDetails usr.user_id usr err) true
        ∈ (handle_reply m s).2.trace ∧
      (handle_reply m s).2.messages = s.messages) ∧
    (∀ ns, s.noticeResults = false :: ns → (handle_reply m s).1 = Except.ok ()) := by
  have hd := dispatch_fail usr.user_id m hmed err [] s hsend
  constructor
  · intro hn
    refine ⟨?_, ?_, ?_, ?_, ?_⟩ <;>
      simp [handle_reply, db.users_find_one_by_topic, tryCatchM, bind_app, pure_app, hg,
        htid, hff, hfu, hid, hd, bot_reply_thread, hn, sendAttemptCount, okSendCount,
        List.countP_append, List.countP_cons, isSendAttempt, isOkSend]
  · intro ns hn
    simp [handle_reply, db.users_find_one_by_topic, tryCatchM, bind_app, pure_app, hg,
      htid, hff, hfu, hid, hd, bot_reply_thread, hn]

/-- Witness for C8: a blocked-recipient send failure posts the blocked
notice into topic 7 with one send attempt; and with the notice post also
failing, the handler still ends successfully. -/
theorem C8_outbound_absorption_witness :
    ((handle_reply wMtext wSsend).1 = Except.ok () ∧
     sendAttemptCount (handle_reply wMtext wSsend).2.trace =
       sendAttemptCount wSsend.trace + 1 ∧
     okSendCount (handle_reply wMtext wSsend).2.trace = okSendCount wSsend.trace ∧
     Call.replyThread (wMtext.threadId.getD 0)
       (errorDetails wRow7.user_id wRow7 "Forbidden: bot was blocked by the user") true
         ∈ (handle_reply wMtext wSsend).2.trace ∧
     (handle_reply wMtext wSsend).2.messages = wSsend.messages) ∧
    (handle_reply wMtext wSsendN).1 = Except.ok () :=
  ⟨(C8_outbound_absorption wSsend wMtext wRow7 "Forbidden: bot was blocked by the user"
      (by decide) (by decide) (by decide) (by decide) (by decide) (by decide)
      (by decide)).1 rfl,
   (C8_outbound_absorption wSsendN wMtext wRow7 "Forbidden: bot was blocked by the user"
      (by decide) (by decide) (by decide) (by decide) (by decide) (by decide)
      (by decide)).2 [] rfl⟩

/-- C9: fast path. When a session with a truthy stored channel id exists,
resolve-or-create returns that id with the state completely unchanged: no
gateway call of any kind, no introductory notice, no store write. -/
theorem C9_fast_path (s : S) (uid a b : String) (row : UserRow)
    (hfind : findUser s.users uid = some row) (ht : row.topic_id ≠ 0)
    (hff : s.findFails = false) :
    get_or_create_topic uid a b s = (Except.ok row.topic_id, s) :=
  goc_fast s uid a b row hfind ht hff

/-- Witness for C9 at a concrete store binding correspondent 42 to topic 7. -/
theorem C9_fast_path_witness :
    get_or_create_topic "42" "Alice" "alice" wSout = (Except.ok wRow7.topic_id, wSout) :=
  C9_fast_path wSout "42" "Alice" "alice" wRow7 (by decide) (by decide) (by decide)

/-- C10: private-chat guard. Every inbound message handler, on an update
whose chat is not private, returns immediately with the state untouched:
no auto-acknowledgment, no session read or created, no forward, no event
appended. -/
theorem C10_private_guard (u : UpdateMsg) (s : S) (h : u.chatType ≠ "private") :
    handle_text_message u s = (Except.ok (), s) ∧
    handle_photo u s = (Except.ok (), s) ∧
    handle_video u s = (Except.ok (), s) ∧
    handle_document u s = (Except.ok (), s) ∧
    handle_voice u s = (Except.ok (), s) ∧
    handle_audio u s = (Except.ok (), s) ∧
    handle_sticker u s = (Except.ok (), s) ∧
    handle_video_note u s = (Except.ok (), s) := by
  refine ⟨?_, ?_, ?_, ?_, ?_, ?_, ?_, ?_⟩ <;>
    simp [handle_text_message, handle_photo, handle_video, handle_document, handle_voice,
      handle_audio, handle_sticker, handle_video_note, inboundViaFts, inboundDirect, h,
      pure_app]

/-- Witness for C10 at a supergroup-originated update. -/
theorem C10_private_guard_witness :
    handle_text_message wUnp wSfresh = (Except.ok (), wSfresh) ∧
    handle_photo wUnp wSfresh = (Except.ok (), wSfresh) ∧
    handle_video wUnp wSfresh = (Except.ok (), wSfresh) ∧
    handle_document wUnp wSfresh = (Except.ok (), wSfresh) ∧
    handle_voice wUnp wSfresh = (Except.ok (), wSfresh) ∧
    handle_audio wUnp wSfresh = (Except.ok (), wSfresh) ∧
    handle_sticker wUnp wSfresh = (Except.ok (), wSfresh) ∧
    handle_video_note wUnp wSfresh = (Except.ok (), wSfresh) :=
  C10_private_guard wUnp wSfresh (by decide)
